import Mathlib

/-!
# ViperLang front end

A shallow embedding of the parts of the ViperLang sources that carry behaviour:

* `core/ast.h`: the operator precedences, the node hierarchy and the `print` overrides;
* `core/viper.h` and `core/file.cc`: `VError`, `VFile` and the loader `VFile::from`;
* `tests/src/test_manager.cc`: `TestManager::register_test` and `TestManager::run_tests`.

Text written with `printf` is modelled by threading the output buffer through every call.
-/

namespace viper

/-! ## Operator precedences (`core/ast.h`) -/

/-- The scoped enumeration `precedence`, enumerators in declaration order. -/
inductive precedence where
  | LOWEST
  | ASSIGN
  | COMPARISON
  | ADDSUB
  | MULDIVMOD
  | BITSHIFT
  | PREFIX
  | CALL
  | INVALID_OP
deriving DecidableEq, Repr

/-- The enumerators of `precedence` as they are listed in the declaration. -/
def precedence.enumerators : List precedence :=
  [.LOWEST, .ASSIGN, .COMPARISON, .ADDSUB, .MULDIVMOD, .BITSHIFT, .PREFIX, .CALL, .INVALID_OP]

/-- The underlying integer of an enumerator: the first enumerator has the initialiser
`LOWEST = 0`, and every enumerator without an initialiser is one more than the enumerator
before it, so an enumerator is its position in the declaration past that initialiser. -/
def precedence.underlying (p : precedence) : Int :=
  0 + (precedence.enumerators.indexOf p : Nat)

/-! ## Strings and formatted output -/

/-- The text a `const char*` obtained with `c_str()` denotes to `printf("%s")` and to
`open`: the characters before the first NUL. -/
def c_str (s : String) : String :=
  String.mk (s.data.takeWhile (fun c => c != Char.ofNat 0))

/-- The standard output buffer. -/
abbrev Stdout := String

/-- One `std::printf` call, given the text its format and arguments expand to. -/
def printf (out : Stdout) (text : String) : Stdout :=
  out ++ text

/-- The expansion of the conversion `%lu` for a `u64` argument: decimal digits. -/
def fmt_lu (value : Nat) : String :=
  Nat.repr (value % 2 ^ 64)

/-! ## Tokens and the node hierarchy (`core/ast.h`) -/

/-- A `token`, with the two members `ast.h` reads (`token.h` is not part of this
development; `kind` is the numeric value of the token kind). -/
structure token where
  kind : Nat
  name : String
deriving DecidableEq, Repr

/-- The bit pattern of an `f64`. -/
structure f64 where
  bits : Nat
deriving DecidableEq, Repr

/-- What `ast.h` uses and does not define: `token::kind_to_str`, the value of a
default-constructed `token`, and the expansion of `%lf` for a double. -/
structure Env where
  kind_to_str : Nat → String
  token_default : token
  fmt_lf : f64 → String

/-- The enumeration `NodeKind`. -/
inductive NodeKind where
  | AST_NOOP
  | AST_INVALID_NODE
deriving DecidableEq, Repr

/-- The data members `kind` and `tok` every node inherits from `ASTNode`. A `kind` of `none`
is a member the constructor left uninitialised. -/
structure ASTNodeFields where
  kind : Option NodeKind
  tok : token
deriving DecidableEq, Repr

/-- The constructor `ASTNode(NodeKind _kind) : kind(_kind) {}`. -/
def ASTNode_ctor_kind (env : Env) (_kind : NodeKind) : ASTNodeFields :=
  { kind := some _kind, tok := env.token_default }

/-- The constructor `ASTNode() {}`, also the base initialiser of every derived node. -/
def ASTNode_ctor (env : Env) : ASTNodeFields :=
  { kind := none, tok := env.token_default }

/-- Objects an `ExpressionNode*` can point at. -/
inductive ExpressionNode where
  | Expression (base : ASTNodeFields)
  | ExpressionPrefixNode (base : ASTNodeFields) (op : token) (rhs : ExpressionNode)
  | ExpressionBinaryNode (base : ASTNodeFields) (lhs : ExpressionNode) (op : token)
      (rhs : ExpressionNode)
  | IntegerLiteralNode (base : ASTNodeFields) (value : Nat)
  | BooleanLiteralNode (base : ASTNodeFields) (is_true : Bool)
  | FloatLiteralNode (base : ASTNodeFields) (value : f64)
deriving Repr

/-- Objects an `ASTNode*` can point at. -/
inductive ASTNode where
  | Node (base : ASTNodeFields)
  | ProcedureNode (base : ASTNodeFields) (name : String) (lookup_name : String)
      (mangled_name : String) (parameters : List ASTNode) (return_declarator : ASTNode)
      (code_body : List ASTNode)
  | ProcParameter (base : ASTNodeFields) (name : String) (data_type : token)
  | VariableDeclaration (base : ASTNodeFields) (name : String) (name_mangled : String)
      (type_spec : ASTNode) (value : ASTNode)
  | ExpressionStatementNode (base : ASTNodeFields) (expr : ExpressionNode)
  | Expr (e : ExpressionNode)

/-- The inherited members of an expression object. -/
def ExpressionNode.base : ExpressionNode → ASTNodeFields
  | .Expression b => b
  | .ExpressionPrefixNode b _ _ => b
  | .ExpressionBinaryNode b _ _ _ => b
  | .IntegerLiteralNode b _ => b
  | .BooleanLiteralNode b _ => b
  | .FloatLiteralNode b _ => b

/-- The inherited members of a node. -/
def ASTNode.base : ASTNode → ASTNodeFields
  | .Node b => b
  | .ProcedureNode b _ _ _ _ _ _ => b
  | .ProcParameter b _ _ => b
  | .VariableDeclaration b _ _ _ _ => b
  | .ExpressionStatementNode b _ => b
  | .Expr e => e.base

/-- The member `tok` of a node. -/
def ASTNode.tok (n : ASTNode) : token := n.base.tok

/-- The member `kind` of a node. -/
def ASTNode.kind (n : ASTNode) : Option NodeKind := n.base.kind

/-- The struct an object was created as. -/
inductive Variant where
  | ASTNode
  | ProcedureNode
  | ProcParameter
  | VariableDeclaration
  | ExpressionNode
  | ExpressionStatementNode
  | ExpressionPrefixNode
  | ExpressionBinaryNode
  | IntegerLiteralNode
  | BooleanLiteralNode
  | FloatLiteralNode
deriving DecidableEq, Repr

/-- The dynamic type of an expression object. -/
def ExpressionNode.variant : ExpressionNode → Variant
  | .Expression _ => .ExpressionNode
  | .ExpressionPrefixNode _ _ _ => .ExpressionPrefixNode
  | .ExpressionBinaryNode _ _ _ _ => .ExpressionBinaryNode
  | .IntegerLiteralNode _ _ => .IntegerLiteralNode
  | .BooleanLiteralNode _ _ => .BooleanLiteralNode
  | .FloatLiteralNode _ _ => .FloatLiteralNode

/-- The dynamic type of a node. -/
def ASTNode.variant : ASTNode → Variant
  | .Node _ => .ASTNode
  | .ProcedureNode _ _ _ _ _ _ _ => .ProcedureNode
  | .ProcParameter _ _ _ => .ProcParameter
  | .VariableDeclaration _ _ _ _ _ => .VariableDeclaration
  | .ExpressionStatementNode _ _ => .ExpressionStatementNode
  | .Expr e => e.variant

/-! ### Constructors -/

/-- The constructor `VariableDeclaration(name, type_spec, expr)`:
`name(name), name_mangled(name), type_spec(type_spec), value(expr)`. -/
def VariableDeclaration_ctor (env : Env) (name : String) (type_spec : ASTNode)
    (expr : ASTNode) : ASTNode :=
  .VariableDeclaration (ASTNode_ctor env) name name type_spec expr

/-- The constructor `IntegerLiteralNode(u64 value) : value(value) {}`. -/
def IntegerLiteralNode_ctor (env : Env) (value : Nat) : ExpressionNode :=
  .IntegerLiteralNode (ASTNode_ctor env) (value % 2 ^ 64)

/-- The constructor `BooleanLiteralNode(bool is_true) : is_true(is_true) {}`. -/
def BooleanLiteralNode_ctor (env : Env) (is_true : Bool) : ExpressionNode :=
  .BooleanLiteralNode (ASTNode_ctor env) is_true

/-- The constructor `FloatLiteralNode(f64 value) : value(value) {}`. -/
def FloatLiteralNode_ctor (env : Env) (value : f64) : ExpressionNode :=
  .FloatLiteralNode (ASTNode_ctor env) value

/-- A `ProcParameter` made with its implicit default constructor, then `set_name` and
`set_data_type`. -/
def ProcParameter_ctor (env : Env) (name : String) (data_type : token) : ASTNode :=
  .ProcParameter (ASTNode_ctor env) name data_type

/-- An `ExpressionStatementNode` made with its implicit default constructor, its member
`expr` assigned afterwards. -/
def ExpressionStatementNode_ctor (env : Env) (expr : ExpressionNode) : ASTNode :=
  .ExpressionStatementNode (ASTNode_ctor env) expr

/-- An `ExpressionPrefixNode` made with its implicit default constructor, its members
assigned afterwards. -/
def ExpressionPrefixNode_ctor (env : Env) (op : token) (rhs : ExpressionNode) :
    ExpressionNode :=
  .ExpressionPrefixNode (ASTNode_ctor env) op rhs

/-- An `ExpressionBinaryNode` made with its implicit default constructor, its members
assigned afterwards. -/
def ExpressionBinaryNode_ctor (env : Env) (lhs : ExpressionNode) (op : token)
    (rhs : ExpressionNode) : ExpressionNode :=
  .ExpressionBinaryNode (ASTNode_ctor env) lhs op rhs

/-- The data members `name`, `name_mangled`, `type_spec` and `value` of a
`VariableDeclaration` object. -/
def ASTNode.variable_declaration_members :
    ASTNode → Option (String × String × ASTNode × ASTNode)
  | .VariableDeclaration _ name name_mangled type_spec value =>
    some (name, name_mangled, type_spec, value)
  | _ => none

/-! ### The `print` overrides -/

/-- The `print` overrides of the expression structs; `ExpressionNode` itself inherits
`virtual void print() {}`. -/
def ExpressionNode.print (env : Env) : ExpressionNode → Stdout → Stdout
  | .Expression _, out => out
  | .ExpressionPrefixNode _ op rhs, out =>
    let out := printf out (c_str (env.kind_to_str op.kind))
    rhs.print env out
  | .ExpressionBinaryNode _ lhs _ rhs, out =>
    let out := printf out "["
    let out := rhs.print env out
    let out := printf out " "
    let out := lhs.print env out
    printf out "]"
  | .IntegerLiteralNode _ value, out => printf out (fmt_lu value)
  | .BooleanLiteralNode _ is_true, out =>
    if is_true then printf out "true" else printf out "false"
  | .FloatLiteralNode _ value, out => printf out (env.fmt_lf value)

mutual
/-- The virtual call `node->print()`. -/
def ASTNode.print (env : Env) : ASTNode → Stdout → Stdout
  | .Node _, out => out
  | .ProcedureNode _ name _ _ parameters return_declarator code_body, out =>
    let out := printf out
      ("proc <" ++ c_str name ++ ">: <" ++ c_str return_declarator.tok.name ++ "> (")
    let out := ASTNode.print_parameters env parameters out
    let out := printf out ") \x7b\n"
    let out := ASTNode.print_code_body env code_body out
    printf out "\x7d\n"
  | .ProcParameter _ name data_type, out =>
    printf out ("<" ++ c_str name ++ ">: <" ++ c_str data_type.name ++ ">")
  | .VariableDeclaration _ name _ type_spec value, out =>
    let out := printf out ("let <" ++ c_str name ++ ">: <" ++ c_str type_spec.tok.name ++ "> = ")
    value.print env out
  | .ExpressionStatementNode _ expr, out => expr.print env out
  | .Expr e, out => e.print env out
/-- The loop `for (const auto& param : this->parameters)` of `ProcedureNode::print`. -/
def ASTNode.print_parameters (env : Env) : List ASTNode → Stdout → Stdout
  | [], out => out
  | param :: rest, out =>
    let out := param.print env out
    let out := printf out ", "
    ASTNode.print_parameters env rest out
/-- The loop `for (const auto& stmt : code_body)` of `ProcedureNode::print`. -/
def ASTNode.print_code_body (env : Env) : List ASTNode → Stdout → Stdout
  | [], out => out
  | stmt :: rest, out =>
    let out := printf out "    "
    let out := stmt.print env out
    let out := printf out "\n"
    ASTNode.print_code_body env rest out
end

/-- Everything `e->print()` writes, starting from an empty buffer. -/
def ExpressionNode.render (env : Env) (e : ExpressionNode) : String :=
  e.print env ""

/-- Everything `node->print()` writes, starting from an empty buffer. -/
def ASTNode.render (env : Env) (n : ASTNode) : String :=
  n.print env ""

/-- The number of `ExpressionBinaryNode` objects in an expression tree. -/
def ExpressionNode.binary_count : ExpressionNode → Nat
  | .Expression _ => 0
  | .ExpressionPrefixNode _ _ rhs => rhs.binary_count
  | .ExpressionBinaryNode _ lhs _ rhs => lhs.binary_count + rhs.binary_count + 1
  | .IntegerLiteralNode _ _ => 0
  | .BooleanLiteralNode _ _ => 0
  | .FloatLiteralNode _ _ => 0

/-- Holds of the trees built from Binary, Prefix, Integer-literal and Boolean-literal nodes
only, in which the text of every prefix operator is free of brackets. -/
def ExpressionNode.bracket_free_ops (env : Env) : ExpressionNode → Bool
  | .Expression _ => false
  | .ExpressionPrefixNode _ op rhs =>
    decide ('[' ∉ (env.kind_to_str op.kind).data) &&
      decide (']' ∉ (env.kind_to_str op.kind).data) && rhs.bracket_free_ops env
  | .ExpressionBinaryNode _ lhs _ rhs => lhs.bracket_free_ops env && rhs.bracket_free_ops env
  | .IntegerLiteralNode _ _ => true
  | .BooleanLiteralNode _ _ => true
  | .FloatLiteralNode _ _ => false

/-- No prefix of the text has more closing than opening brackets. -/
def prefix_balanced (text : List Char) : Prop :=
  ∀ k : Nat, (text.take k).count ']' ≤ (text.take k).count '['

/-- The pieces of a list of texts, one after the other. -/
def concat_all (pieces : List String) : String :=
  pieces.foldr (fun piece rest => piece ++ rest) ""

/-! ### Sample objects -/

/-- A sample environment: kind `0` is spelled `!`, every other kind `~`; a default token
has kind `0` and an empty name. -/
def sample_env : Env :=
  { kind_to_str := fun k => if k = 0 then "!" else "~",
    token_default := { kind := 0, name := "" },
    fmt_lf := fun _ => "0.000000" }

/-- The operand `a`: the literal `1`. -/
def sample_a : ExpressionNode := IntegerLiteralNode_ctor sample_env 1

/-- The operand `b`: the literal `2`. -/
def sample_b : ExpressionNode := IntegerLiteralNode_ctor sample_env 2

/-- The operand `c`: the literal `3`. -/
def sample_c : ExpressionNode := IntegerLiteralNode_ctor sample_env 3

/-- The node of `b * c`. -/
def sample_mul : ExpressionNode :=
  ExpressionBinaryNode_ctor sample_env sample_b { kind := 11, name := "*" } sample_c

/-- The tree of `a + b * c`: the root `+` with `a` on the left and the `*` node on the
right. -/
def sample_add : ExpressionNode :=
  ExpressionBinaryNode_ctor sample_env sample_a { kind := 10, name := "+" } sample_mul

/-- A type node whose token is `i32`. -/
def sample_i32 : ASTNode :=
  .Node { kind := some .AST_NOOP, tok := { kind := 20, name := "i32" } }

/-- The Integer literal `0` as an initialiser. -/
def sample_zero : ASTNode :=
  .Expr (IntegerLiteralNode_ctor sample_env 0)

/-- The tree of `!true + 7`. -/
def sample_not_plus : ExpressionNode :=
  ExpressionBinaryNode_ctor sample_env
    (ExpressionPrefixNode_ctor sample_env { kind := 0, name := "!" }
      (BooleanLiteralNode_ctor sample_env true))
    { kind := 10, name := "+" } (IntegerLiteralNode_ctor sample_env 7)

/-! ## Diagnostics and source files (`core/viper.h`, `core/file.cc`) -/

/-- The enumeration `error_level`. -/
inductive error_level where
  | ERR_LEVEL_WARNING
  | ERR_LEVEL_FATAL
deriving DecidableEq, Repr

/-- The class `VError`. -/
structure VError where
  m_msg : String
  m_level : error_level
deriving DecidableEq, Repr

/-- One byte of a file or of a `std::string` buffer. -/
abbrev Byte := Fin 256

/-- A `VModule*`, as the address it holds. -/
abbrev VModulePtr := Nat

/-- The struct `VFile`. The `i32` members have no initialiser, `none` is their value until
something is assigned. `dependency_modules` lists the entries of the map. -/
structure VFile where
  name : String
  file_number : Option Int
  content : List Byte
  display_name : String
  line_delta : Option Int
  dependency_modules : List (String × VModulePtr)
deriving DecidableEq, Repr

/-- The constructor `VFile() {}`: strings and the map are default-constructed empty. -/
def VFile_ctor : VFile :=
  { name := "", file_number := none, content := [], display_name := "",
    line_delta := none, dependency_modules := [] }

/-- The files that can be opened for reading, by the C string handed to `open`: `none` for
a path that is missing or unreadable, otherwise the bytes of the file. -/
abbrev Disk := String → Option (List Byte)

/-- A `std::fstream`: the bytes of the file it is attached to, the get position and the
fail state. -/
structure fstream where
  file : Option (List Byte)
  gpos : Nat
  failbit : Bool
deriving DecidableEq, Repr

/-- A default-constructed `std::fstream`. -/
def fstream_ctor : fstream :=
  { file := none, gpos := 0, failbit := false }

/-- The call `handle.open(path, std::ios::in)`: success clears the state, failure sets the
fail state. -/
def fstream.open (disk : Disk) (handle : fstream) (path : String) : fstream :=
  match disk path with
  | some bytes => { file := some bytes, gpos := 0, failbit := false }
  | none => { handle with failbit := true }

/-- The test `!handle`. -/
def fstream.not (handle : fstream) : Bool :=
  handle.failbit

/-- The size of the attached file. -/
def fstream.size (handle : fstream) : Nat :=
  match handle.file with
  | some bytes => bytes.length
  | none => 0

/-- The call `handle.seekg(0, handle.end)`. -/
def fstream.seekg_end (handle : fstream) : fstream :=
  if handle.failbit then handle else { handle with gpos := handle.size }

/-- The call `handle.seekg(0, handle.beg)`. -/
def fstream.seekg_beg (handle : fstream) : fstream :=
  if handle.failbit then handle else { handle with gpos := 0 }

/-- The call `handle.tellg()`: the get position, `-1` in the fail state. -/
def fstream.tellg (handle : fstream) : Int :=
  if handle.failbit then -1 else (handle.gpos : Int)

/-- The call `handle.read(buffer, count)`: the bytes extracted and the stream afterwards;
fewer than `count` bytes sets the fail state. -/
def fstream.read (handle : fstream) (count : Nat) : List Byte × fstream :=
  if handle.failbit then ([], handle)
  else
    let got := ((handle.file.getD []).drop handle.gpos).take count
    (got, { handle with gpos := handle.gpos + got.length,
                        failbit := decide (got.length < count) })

/-- The conversion of a stream offset to `std::size_t`. -/
def to_size_t (offset : Int) : Nat :=
  (offset % (2 : Int) ^ 64).toNat

/-- The call `content.resize(n)`: truncates, or pads with zero bytes. -/
def string_resize (content : List Byte) (n : Nat) : List Byte :=
  content.take n ++ List.replicate (n - content.length) 0

/-- The bytes of a string after `read` has stored `got` through the pointer `data()`: the
bytes at the start are overwritten, and the size of the string stays what it was. -/
def store_at_data (content : List Byte) (got : List Byte) : List Byte :=
  (got ++ content.drop got.length).take content.length

/-- What a call of `VFile::from` leaves behind: the returned `VFile` and the text written to
`stderr`. -/
structure FromOutcome where
  ret : VFile
  stderr : String
deriving DecidableEq, Repr

/-- The function `VFile::from(file_path)`. -/
def VFile.from (disk : Disk) (file_path : String) : FromOutcome :=
  let file : VFile := VFile_ctor
  let handle : fstream := fstream_ctor
  let file := { file with name := file_path }
  let handle := handle.open disk (c_str file_path)
  if handle.not then
    { ret := VFile_ctor,
      stderr := "Error: cannot open file " ++ c_str file_path ++ "\n" }
  else
    let handle := handle.seekg_end
    let file_length : Nat := to_size_t handle.tellg
    let handle := handle.seekg_beg
    let file := { file with content := string_resize file.content file_length }
    let got := (handle.read file_length).1
    let file := { file with content := store_at_data file.content got }
    { ret := file, stderr := "" }

/-- What the contract `load(path) → SourceUnit | Diagnostic(FATAL)` of the loader hands to
its caller. -/
inductive LoadResult where
  | SourceUnit (unit : VFile)
  | Diagnostic (error : VError)
deriving DecidableEq, Repr

/-- The value the caller of `VFile::from` holds, in terms of that contract: the declared
return type is `VFile`. -/
def FromOutcome.returned (o : FromOutcome) : LoadResult :=
  .SourceUnit o.ret

/-! ## The test manager (`tests/src/test_manager.cc`) -/

/-- The struct `test_entry`: the registered function, by the value a call of it yields, and
the description. -/
structure test_entry where
  func : Unit → Nat
  description : String

/-- The class `TestManager`. -/
structure TestManager where
  m_tests : List test_entry

/-- A manager with no registered test. -/
def TestManager_ctor : TestManager :=
  { m_tests := [] }

/-- The function `TestManager::register_test(func, desc)`. -/
def TestManager.register_test (m : TestManager) (func : Unit → Nat) (desc : String) :
    TestManager :=
  let entry : test_entry := { func := func, description := desc }
  { m_tests := m.m_tests ++ [entry] }

/-- The constant `BYPASS` of `run_tests`. -/
def BYPASS : Nat := 2

/-- The locals of `run_tests` that outlive an iteration: the three counters, the indices of
the tests invoked so far, and the `[SKIPPED]` and `[FAILED]` lines written. The status lines
carry wall-clock durations and are left out. -/
structure RunState where
  passed : Nat
  failed : Nat
  skipped : Nat
  invoked : List Nat
  lines : String
deriving DecidableEq, Repr

/-- One iteration of the loop of `run_tests`, for index `i`. -/
def TestManager.run_one (m : TestManager) (st : RunState) (i : Nat) : RunState :=
  match m.m_tests.get? i with
  | none => st
  | some entry =>
    let result : Nat := entry.func () % 2 ^ 8
    let st := { st with invoked := st.invoked ++ [i] }
    if result ≠ 0 then
      { st with passed := (st.passed + 1) % 2 ^ 64 }
    else if result = BYPASS then
      { st with lines := printf st.lines ("[SKIPPED]: " ++ c_str entry.description ++ "\n"),
                skipped := (st.skipped + 1) % 2 ^ 64 }
    else
      { st with lines := printf st.lines ("[FAILED]: " ++ c_str entry.description ++ "\n"),
                failed := (st.failed + 1) % 2 ^ 64 }

/-- The function `TestManager::run_tests()`: the loop `for (i = 0; i < count; i++)`. -/
def TestManager.run_tests (m : TestManager) : RunState :=
  let count := m.m_tests.length
  (List.range count).foldl m.run_one
    { passed := 0, failed := 0, skipped := 0, invoked := [], lines := "" }

/-! ### Sample inputs -/

/-- A disk holding the one file `main.vpr`, whose bytes spell `let`. -/
def sample_disk : Disk :=
  fun path => if path = "main.vpr" then some [108, 101, 116] else none

/-- A manager with one registered test, which yields `BYPASS`. -/
def sample_bypass_manager : TestManager :=
  TestManager_ctor.register_test (fun _ => 2) "bypassed"

/-- A manager with three registered tests, yielding `1`, `0` and `BYPASS`. -/
def sample_manager : TestManager :=
  ((TestManager_ctor.register_test (fun _ => 1) "first").register_test
    (fun _ => 0) "second").register_test (fun _ => 2) "third"

/-! ## Theorems -/

/-! ### Output threading -/

/-- Printing an expression appends its rendering to whatever was written before. -/
theorem ExpressionNode.print_eq_append (env : Env) (e : ExpressionNode) :
    ∀ out : Stdout, e.print env out = out ++ e.render env := by
  induction e with
  | Expression b =>
    intro out
    simp [ExpressionNode.render, ExpressionNode.print]
  | ExpressionPrefixNode b op rhs ih =>
    intro out
    have h := ih ("" ++ c_str (env.kind_to_str op.kind))
    simp only [ExpressionNode.render, ExpressionNode.print, printf] at h ⊢
    rw [ih, h]
    simp [ExpressionNode.render, String.append_assoc]
  | ExpressionBinaryNode b lhs op rhs ihl ihr =>
    intro out
    simp only [ExpressionNode.render, ExpressionNode.print, printf]
    rw [ihr (out ++ "["), ihl, ihr ("" ++ "["), ihl]
    simp [String.append_assoc]
  | IntegerLiteralNode b v =>
    intro out
    simp [ExpressionNode.render, ExpressionNode.print, printf]
  | BooleanLiteralNode b t =>
    intro out
    cases t <;> simp [ExpressionNode.render, ExpressionNode.print, printf]
  | FloatLiteralNode b v =>
    intro out
    simp [ExpressionNode.render, ExpressionNode.print, printf]

/-- The rendering of a Binary node in terms of the renderings of its operands. -/
theorem ExpressionNode.render_binary (env : Env) (b : ASTNodeFields)
    (lhs : ExpressionNode) (op : token) (rhs : ExpressionNode) :
    (ExpressionNode.ExpressionBinaryNode b lhs op rhs).render env =
      "[" ++ rhs.render env ++ " " ++ lhs.render env ++ "]" := by
  show (ExpressionNode.ExpressionBinaryNode b lhs op rhs).print env "" = _
  simp only [ExpressionNode.print, printf]
  rw [ExpressionNode.print_eq_append env rhs, ExpressionNode.print_eq_append env lhs]
  simp

/-- The rendering of a Prefix node in terms of the rendering of its operand. -/
theorem ExpressionNode.render_prefix (env : Env) (b : ASTNodeFields)
    (op : token) (rhs : ExpressionNode) :
    (ExpressionNode.ExpressionPrefixNode b op rhs).render env =
      c_str (env.kind_to_str op.kind) ++ rhs.render env := by
  show (ExpressionNode.ExpressionPrefixNode b op rhs).print env "" = _
  simp only [ExpressionNode.print, printf]
  rw [ExpressionNode.print_eq_append env rhs]
  simp

mutual
/-- Printing a node appends its rendering to whatever was written before. -/
theorem ASTNode.print_node_eq_append (env : Env) :
    ∀ (n : ASTNode) (out : Stdout), n.print env out = out ++ n.render env
  | .Node _, out => by simp [ASTNode.render, ASTNode.print]
  | .ProcedureNode _ name _ _ parameters return_declarator code_body, out => by
    simp only [ASTNode.render, ASTNode.print, printf]
    rw [ASTNode.print_parameters_eq_append env parameters,
      ASTNode.print_code_body_eq_append env code_body,
      ASTNode.print_parameters_eq_append env parameters ("" ++ _),
      ASTNode.print_code_body_eq_append env code_body ("" ++ _ ++ _ ++ _)]
    simp [String.append_assoc]
  | .ProcParameter _ name data_type, out => by
    simp [ASTNode.render, ASTNode.print, printf]
  | .VariableDeclaration _ name _ type_spec value, out => by
    simp only [ASTNode.render, ASTNode.print, printf]
    rw [ASTNode.print_node_eq_append env value, ASTNode.print_node_eq_append env value ("" ++ _)]
    simp [ASTNode.render, String.append_assoc]
  | .ExpressionStatementNode _ expr, out => by
    simp only [ASTNode.render, ASTNode.print]
    rw [ExpressionNode.print_eq_append env expr]
    rfl
  | .Expr e, out => by
    simp only [ASTNode.render, ASTNode.print]
    rw [ExpressionNode.print_eq_append env e]
    rfl
/-- The parameter loop appends what it writes to whatever was written before. -/
theorem ASTNode.print_parameters_eq_append (env : Env) :
    ∀ (ps : List ASTNode) (out : Stdout),
      ASTNode.print_parameters env ps out = out ++ ASTNode.print_parameters env ps ""
  | [], out => by simp [ASTNode.print_parameters]
  | p :: ps, out => by
    simp only [ASTNode.print_parameters, printf]
    rw [ASTNode.print_parameters_eq_append env ps,
      ASTNode.print_parameters_eq_append env ps (p.print env "" ++ _),
      ASTNode.print_node_eq_append env p, ASTNode.print_node_eq_append env p ""]
    simp [String.append_assoc]
/-- The body loop appends what it writes to whatever was written before. -/
theorem ASTNode.print_code_body_eq_append (env : Env) :
    ∀ (ss : List ASTNode) (out : Stdout),
      ASTNode.print_code_body env ss out = out ++ ASTNode.print_code_body env ss ""
  | [], out => by simp [ASTNode.print_code_body]
  | st :: ss, out => by
    simp only [ASTNode.print_code_body, printf]
    rw [ASTNode.print_code_body_eq_append env ss,
      ASTNode.print_code_body_eq_append env ss (st.print env _ ++ _),
      ASTNode.print_node_eq_append env st, ASTNode.print_node_eq_append env st ("" ++ _)]
    simp [String.append_assoc]
end

/-- What the parameter loop writes: each parameter's rendering followed by a comma and a
space, in list order. -/
theorem ASTNode.print_parameters_closed (env : Env) (ps : List ASTNode) :
    ASTNode.print_parameters env ps "" =
      concat_all (ps.map (fun param => param.render env ++ ", ")) := by
  induction ps with
  | nil => rfl
  | cons p ps ih =>
    simp only [ASTNode.print_parameters, printf, List.map_cons, concat_all, List.foldr_cons]
    rw [ASTNode.print_parameters_eq_append env ps, ih]
    rfl

/-- What the body loop writes: each statement's rendering between four spaces and a line
break, in list order. -/
theorem ASTNode.print_code_body_closed (env : Env) (ss : List ASTNode) :
    ASTNode.print_code_body env ss "" =
      concat_all (ss.map (fun stmt => "    " ++ stmt.render env ++ "\n")) := by
  induction ss with
  | nil => rfl
  | cons st ss ih =>
    simp only [ASTNode.print_code_body, printf, List.map_cons, concat_all, List.foldr_cons]
    rw [ASTNode.print_code_body_eq_append env ss, ih, ASTNode.print_node_eq_append env st]
    simp [concat_all, String.append_assoc]

/-- A string without a NUL character is its own C string. -/
theorem c_str_eq_self (s : String) (h : Char.ofNat 0 ∉ s.data) : c_str s = s := by
  unfold c_str
  have : s.data.takeWhile (fun c => c != Char.ofNat 0) = s.data := by
    rw [List.takeWhile_eq_self_iff]
    intro c hc
    simp only [bne_iff_ne, ne_eq]
    rintro rfl
    exact h hc
  rw [this]

/-! ### The loader on the two kinds of path -/

/-- What `VFile::from` leaves behind when the open fails. -/
theorem VFile.from_of_open_failed (disk : Disk) (file_path : String)
    (h : disk (c_str file_path) = none) :
    VFile.from disk file_path =
      { ret := VFile_ctor,
        stderr := "Error: cannot open file " ++ c_str file_path ++ "\n" } := by
  simp [VFile.from, fstream.open, fstream.not, fstream_ctor, h]

/-- A size below `2 ^ 64` survives the conversion to `std::size_t`. -/
theorem to_size_t_of_lt (n : Nat) (h : n < 2 ^ 64) : to_size_t (n : Int) = n := by
  unfold to_size_t
  have h2 : ((n : Int) % (2 : Int) ^ 64) = (n : Int) := by
    apply Int.emod_eq_of_lt
    · exact Int.ofNat_nonneg n
    · exact_mod_cast h
  rw [h2]
  exact Int.toNat_natCast n

/-- What `VFile::from` leaves behind when the open succeeds on a file of bytes `b`. -/
theorem VFile.from_of_open_ok (disk : Disk) (file_path : String) (b : List Byte)
    (h : disk (c_str file_path) = some b) (hlen : b.length < 2 ^ 64) :
    VFile.from disk file_path =
      { ret := { VFile_ctor with name := file_path, content := b }, stderr := "" } := by
  have hsz := to_size_t_of_lt b.length hlen
  simp [VFile.from, fstream.open, fstream.not, fstream_ctor, h, fstream.seekg_end,
    fstream.seekg_beg, fstream.tellg, fstream.read, fstream.size, hsz, string_resize,
    store_at_data, VFile_ctor]

/-! ### The counters of `run_tests` -/

/-- One iteration leaves a `skipped` counter of zero at zero: the branch that increments it
is entered only when the result is zero, and then the result is not `BYPASS`. -/
theorem TestManager.run_one_skipped (m : TestManager) (st : RunState) (i : Nat)
    (h : st.skipped = 0) : (m.run_one st i).skipped = 0 := by
  unfold TestManager.run_one
  split
  · exact h
  · rename_i entry _
    by_cases hr : entry.func () % 256 = 0
    · simp [hr, BYPASS, h]
    · simp [hr, h]

/-- The loop leaves a `skipped` counter of zero at zero. -/
theorem TestManager.foldl_run_one_skipped (m : TestManager) (is : List Nat) :
    ∀ st : RunState, st.skipped = 0 → (is.foldl m.run_one st).skipped = 0 := by
  induction is with
  | nil => exact fun st h => h
  | cons i is ih => exact fun st h => ih _ (TestManager.run_one_skipped m st i h)

/-! ### Brackets in lists of characters -/

theorem digitChar_not_bracket (d : Nat) (h : d < 10) :
    Nat.digitChar d ≠ '[' ∧ Nat.digitChar d ≠ ']' := by
  have key : ∀ i : Fin 10, Nat.digitChar i.val ≠ '[' ∧ Nat.digitChar i.val ≠ ']' := by decide
  exact key ⟨d, h⟩

theorem toDigitsCore_not_bracket (fuel : Nat) :
    ∀ (n : Nat) (ds : List Char), (∀ c ∈ ds, c ≠ '[' ∧ c ≠ ']') →
      ∀ c ∈ Nat.toDigitsCore 10 fuel n ds, c ≠ '[' ∧ c ≠ ']' := by
  induction fuel with
  | zero =>
    intro n ds hds c hc
    simp only [Nat.toDigitsCore] at hc
    exact hds c hc
  | succ fuel ih =>
    intro n ds hds c hc
    have hcons : ∀ x ∈ Nat.digitChar (n % 10) :: ds, x ≠ '[' ∧ x ≠ ']' := by
      intro x hx
      rcases List.mem_cons.mp hx with rfl | hx
      · exact digitChar_not_bracket (n % 10) (Nat.mod_lt n (by decide))
      · exact hds x hx
    simp only [Nat.toDigitsCore] at hc
    split at hc
    · exact hcons c hc
    · exact ih (n / 10) _ hcons c hc

theorem repr_not_bracket (n : Nat) : ∀ c ∈ (Nat.repr n).data, c ≠ '[' ∧ c ≠ ']' := by
  intro c hc
  have : (Nat.repr n).data = Nat.toDigitsCore 10 (n + 1) n [] := rfl
  rw [this] at hc
  exact toDigitsCore_not_bracket (n + 1) n [] (by simp) c hc

theorem count_zero_of_not_mem_brackets (l : List Char) (h : ∀ c ∈ l, c ≠ '[' ∧ c ≠ ']') :
    l.count '[' = 0 ∧ l.count ']' = 0 := by
  constructor
  · exact List.count_eq_zero.mpr (fun hm => (h _ hm).1 rfl)
  · exact List.count_eq_zero.mpr (fun hm => (h _ hm).2 rfl)

theorem prefix_balanced_of_no_close (l : List Char) (h : l.count ']' = 0) :
    prefix_balanced l := by
  intro k
  have := (List.take_sublist k l).count_le ']'
  omega

theorem prefix_balanced_append (l₁ l₂ : List Char) (h₁ : prefix_balanced l₁)
    (h₂ : prefix_balanced l₂) : prefix_balanced (l₁ ++ l₂) := by
  intro k
  rw [List.take_append_eq_append_take, List.count_append, List.count_append]
  have a := h₁ k
  have b := h₂ (k - l₁.length)
  omega

theorem prefix_balanced_wrap (m : List Char) (h : prefix_balanced m)
    (heq : m.count '[' = m.count ']') : prefix_balanced ('[' :: (m ++ [']'])) := by
  intro k
  cases k with
  | zero => simp
  | succ k =>
    rw [List.take_succ_cons, List.take_append_eq_append_take]
    simp only [List.count_cons, List.count_append]
    have a := h k
    by_cases hk : k ≤ m.length
    · have : k - m.length = 0 := by omega
      rw [this]
      simp
      omega
    · have hm : m.take k = m := List.take_of_length_le (by omega)
      have hone : ([']'] : List Char).take (k - m.length) = [']'] :=
        List.take_of_length_le (by simp; omega)
      rw [hm, hone]
      simp
      omega

/-! ### The precedence enumeration -/

/-- C1: the underlying values of the precedence enumerators are strictly ordered in
declaration order, LOWEST < ASSIGN < COMPARISON < ADDSUB < MULDIVMOD < BITSHIFT < PREFIX <
CALL < INVALID_OP, with LOWEST equal to 0, each value one more than the one before it, and
the sentinel INVALID_OP strictly greater than every other enumerator. -/
theorem precedence_strictly_ordered :
    precedence.LOWEST.underlying = 0 ∧
    (precedence.LOWEST.underlying < precedence.ASSIGN.underlying ∧
      precedence.ASSIGN.underlying < precedence.COMPARISON.underlying ∧
      precedence.COMPARISON.underlying < precedence.ADDSUB.underlying ∧
      precedence.ADDSUB.underlying < precedence.MULDIVMOD.underlying ∧
      precedence.MULDIVMOD.underlying < precedence.BITSHIFT.underlying ∧
      precedence.BITSHIFT.underlying < precedence.PREFIX.underlying ∧
      precedence.PREFIX.underlying < precedence.CALL.underlying ∧
      precedence.CALL.underlying < precedence.INVALID_OP.underlying) ∧
    precedence.enumerators.map precedence.underlying = [0, 1, 2, 3, 4, 5, 6, 7, 8] ∧
    (∀ p : precedence, p ∈ precedence.enumerators) ∧
    (∀ p : precedence, p ≠ precedence.INVALID_OP →
      p.underlying < precedence.INVALID_OP.underlying) := by
  refine ⟨by decide, by decide, by decide, ?_, ?_⟩
  · intro p
    cases p <;> decide
  · intro p
    cases p <;> decide

/-! ### Rendering of Binary nodes -/

/-- C2, as stated, fails on the tree of `1 + 2 * 3`: the `*` node over lhs `2` and rhs `3`
renders as `[3 2]`, which is not the bracketed left operand, space, right operand `[2 3]`,
and the root renders as `[[3 2] 1]`, not as `[1 [2 3]]`. -/
theorem binary_print_left_first_counterexample :
    sample_mul.render sample_env = "[3 2]" ∧
    sample_mul.render sample_env ≠
      "[" ++ sample_b.render sample_env ++ " " ++ sample_c.render sample_env ++ "]" ∧
    sample_add.render sample_env = "[[3 2] 1]" ∧
    sample_add.render sample_env ≠
      "[" ++ sample_a.render sample_env ++ " " ++ sample_mul.render sample_env ++ "]" := by
  decide

/-- C2, amended: for every Binary node, print emits one opening bracket, the rendering of
the right operand, a single space, the rendering of the left operand and one closing
bracket (right before left). For the tree of `a + b * c` the `*` node renders as the
bracketed `c`, space, `b`, and that text stands first inside the brackets of the root,
before the space and `a`. -/
theorem binary_print_right_first (env : Env) :
    (∀ (base : ASTNodeFields) (lhs : ExpressionNode) (op : token) (rhs : ExpressionNode),
      (ExpressionNode.ExpressionBinaryNode base lhs op rhs).render env =
        "[" ++ rhs.render env ++ " " ++ lhs.render env ++ "]") ∧
    (∀ (a b c : ExpressionNode) (plus star : token),
      (ExpressionBinaryNode_ctor env b star c).render env =
        "[" ++ c.render env ++ " " ++ b.render env ++ "]" ∧
      (ExpressionBinaryNode_ctor env a plus (ExpressionBinaryNode_ctor env b star c)).render env =
        "[" ++ ("[" ++ c.render env ++ " " ++ b.render env ++ "]") ++ " " ++
          a.render env ++ "]") := by
  refine ⟨fun base lhs op rhs => ExpressionNode.render_binary env base lhs op rhs, ?_⟩
  intro a b c plus star
  simp only [ExpressionBinaryNode_ctor, ExpressionNode.render_binary]
  exact ⟨trivial, trivial⟩

/-! ### Bracket balance of rendered expressions -/

/-- C9: for every expression tree built from Binary, Prefix, Integer-literal and
Boolean-literal nodes whose prefix operators are spelled without brackets, the rendered
text has as many opening brackets as the tree has Binary nodes, as many closing brackets,
and no prefix of the text has more closing than opening brackets. -/
theorem render_bracket_balanced (env : Env) (e : ExpressionNode)
    (h : e.bracket_free_ops env = true) :
    (e.render env).data.count '[' = e.binary_count ∧
    (e.render env).data.count ']' = e.binary_count ∧
    prefix_balanced (e.render env).data := by
  induction e with
  | Expression b => simp [ExpressionNode.bracket_free_ops] at h
  | FloatLiteralNode b v => simp [ExpressionNode.bracket_free_ops] at h
  | IntegerLiteralNode b v =>
    have hz := count_zero_of_not_mem_brackets _ (repr_not_bracket (v % 2 ^ 64))
    have hr : (ExpressionNode.IntegerLiteralNode b v).render env = Nat.repr (v % 2 ^ 64) := by
      simp [ExpressionNode.render, ExpressionNode.print, printf, fmt_lu]
    rw [hr]
    exact ⟨hz.1, hz.2, prefix_balanced_of_no_close _ hz.2⟩
  | BooleanLiteralNode b t =>
    have hr : (ExpressionNode.BooleanLiteralNode b t).render env =
        if t then "true" else "false" := by
      cases t <;> simp [ExpressionNode.render, ExpressionNode.print, printf]
    have hb : (ExpressionNode.BooleanLiteralNode b t).binary_count = 0 := rfl
    rw [hr, hb]
    cases t
    · exact ⟨by decide, by decide, prefix_balanced_of_no_close _ (by decide)⟩
    · exact ⟨by decide, by decide, prefix_balanced_of_no_close _ (by decide)⟩
  | ExpressionPrefixNode b op rhs ih =>
    simp only [ExpressionNode.bracket_free_ops, Bool.and_eq_true, decide_eq_true_eq] at h
    obtain ⟨⟨ho, hc⟩, hr⟩ := h
    obtain ⟨i1, i2, i3⟩ := ih hr
    have hsub : ∀ x ∈ (c_str (env.kind_to_str op.kind)).data, x ≠ '[' ∧ x ≠ ']' := by
      intro x hx
      have hx2 : x ∈ (env.kind_to_str op.kind).data :=
        (List.takeWhile_sublist _).subset hx
      constructor
      · rintro rfl
        exact ho hx2
      · rintro rfl
        exact hc hx2
    have hz := count_zero_of_not_mem_brackets _ hsub
    rw [ExpressionNode.render_prefix, String.data_append]
    refine ⟨?_, ?_, prefix_balanced_append _ _ (prefix_balanced_of_no_close _ hz.2) i3⟩
    · rw [List.count_append, hz.1, i1]
      simp [ExpressionNode.binary_count]
    · rw [List.count_append, hz.2, i2]
      simp [ExpressionNode.binary_count]
  | ExpressionBinaryNode b lhs op rhs ihl ihr =>
    simp only [ExpressionNode.bracket_free_ops, Bool.and_eq_true] at h
    obtain ⟨l1, l2, l3⟩ := ihl h.1
    obtain ⟨r1, r2, r3⟩ := ihr h.2
    have hd : ((ExpressionNode.ExpressionBinaryNode b lhs op rhs).render env).data =
        '[' :: (((rhs.render env).data ++ ' ' :: (lhs.render env).data) ++ [']']) := by
      rw [ExpressionNode.render_binary]
      simp [String.data_append]
    have hsp : prefix_balanced (' ' :: (lhs.render env).data) :=
      prefix_balanced_append [' '] _ (prefix_balanced_of_no_close _ (by decide)) l3
    have hmid := prefix_balanced_append _ _ r3 hsp
    rw [hd]
    refine ⟨?_, ?_, prefix_balanced_wrap _ hmid ?_⟩
    · simp [List.count_cons, List.count_append, ExpressionNode.binary_count, l1, r1]
      omega
    · simp [List.count_cons, List.count_append, ExpressionNode.binary_count, l2, r2]
      omega
    · simp [List.count_cons, List.count_append, l1, l2, r1, r2]

/-- C9 at the tree of `!true + 7`, rendered `[7 !true]`. -/
theorem render_bracket_balanced_witness :
    sample_not_plus.bracket_free_ops sample_env = true ∧
    ((sample_not_plus.render sample_env).data.count '[' = sample_not_plus.binary_count ∧
      (sample_not_plus.render sample_env).data.count ']' = sample_not_plus.binary_count ∧
      prefix_balanced (sample_not_plus.render sample_env).data) :=
  ⟨by decide, render_bracket_balanced sample_env sample_not_plus (by decide)⟩

/-! ### Rendering of procedures and variable declarations -/

/-- C6: a Procedure node prints the header with the procedure name and the return type,
then every parameter once in parameter-list order (each followed by a comma and a space),
then the opening of the body, then every body statement once in body order, each after four
spaces and before a line break, and last the closing brace line; a parameter prints its
name and its type between angle brackets. -/
theorem procedure_print_order (env : Env) :
    (∀ (base : ASTNodeFields) (name lookup_name mangled_name : String)
        (parameters : List ASTNode) (return_declarator : ASTNode) (code_body : List ASTNode),
      (ASTNode.ProcedureNode base name lookup_name mangled_name parameters return_declarator
          code_body).render env =
        "proc <" ++ c_str name ++ ">: <" ++ c_str return_declarator.tok.name ++ "> (" ++
          concat_all (parameters.map (fun param => param.render env ++ ", ")) ++
          ") \x7b\n" ++
          concat_all (code_body.map (fun stmt => "    " ++ stmt.render env ++ "\n")) ++
          "\x7d\n") ∧
    (∀ (base : ASTNodeFields) (name : String) (data_type : token),
      (ASTNode.ProcParameter base name data_type).render env =
        "<" ++ c_str name ++ ">: <" ++ c_str data_type.name ++ ">") := by
  constructor
  · intro base name lookup_name mangled_name parameters return_declarator code_body
    simp only [ASTNode.render, ASTNode.print, printf]
    rw [ASTNode.print_code_body_eq_append env code_body,
      ASTNode.print_parameters_eq_append env parameters,
      ASTNode.print_parameters_closed, ASTNode.print_code_body_closed]
    simp only [String.append_assoc, String.empty_append]
    rfl
  · intro base name data_type
    simp [ASTNode.render, ASTNode.print, printf]

/-- C7: `VariableDeclaration(name, type_spec, expr)` yields a node whose name is `name`,
whose mangled name equals the name, and whose type reference and initialiser are the nodes
supplied; it prints `let <NAME>: <TYPE> = ` and then the initialiser, where NAME and TYPE
are the C strings of the name and of the type node's token name, which are the name and the
token name themselves when these hold no NUL character. For the name `x`, a type node with
token `i32` and the Integer literal `0` the text is `let <x>: <i32> = 0`. -/
theorem variable_declaration_ctor_print (env : Env) (name : String)
    (type_spec expr : ASTNode) :
    (VariableDeclaration_ctor env name type_spec expr).variable_declaration_members =
      some (name, name, type_spec, expr) ∧
    (VariableDeclaration_ctor env name type_spec expr).render env =
      "let <" ++ c_str name ++ ">: <" ++ c_str type_spec.tok.name ++ "> = " ++
        expr.render env ∧
    (Char.ofNat 0 ∉ name.data → Char.ofNat 0 ∉ type_spec.tok.name.data →
      (VariableDeclaration_ctor env name type_spec expr).render env =
        "let <" ++ name ++ ">: <" ++ type_spec.tok.name ++ "> = " ++ expr.render env) ∧
    (∀ (kind : Option NodeKind) (k : Nat),
      (VariableDeclaration_ctor env "x"
          (ASTNode.Node { kind := kind, tok := { kind := k, name := "i32" } })
          (ASTNode.Expr (IntegerLiteralNode_ctor env 0))).render env =
        "let <x>: <i32> = 0") := by
  have hrender : (VariableDeclaration_ctor env name type_spec expr).render env =
      "let <" ++ c_str name ++ ">: <" ++ c_str type_spec.tok.name ++ "> = " ++
        expr.render env := by
    simp only [VariableDeclaration_ctor, ASTNode.render, ASTNode.print, printf]
    rw [ASTNode.print_node_eq_append env expr]
    simp [ASTNode.render]
  refine ⟨rfl, hrender, ?_, ?_⟩
  · intro hn ht
    rw [hrender, c_str_eq_self name hn, c_str_eq_self _ ht]
  · intro kind k
    rfl

/-- C7 at the declaration `let x: i32 = 0`. -/
theorem variable_declaration_ctor_print_witness :
    Char.ofNat 0 ∉ "x".data ∧ Char.ofNat 0 ∉ sample_i32.tok.name.data ∧
    (VariableDeclaration_ctor sample_env "x" sample_i32 sample_zero).render sample_env =
      "let <" ++ "x" ++ ">: <" ++ sample_i32.tok.name ++ "> = " ++
        sample_zero.render sample_env :=
  ⟨by decide, by decide,
    (variable_declaration_ctor_print sample_env "x" sample_i32 sample_zero).2.2.1
      (by decide) (by decide)⟩

/-! ### Node creation -/

/-- C8, as stated, fails: `IntegerLiteralNode(0)` and `BooleanLiteralNode(true)` are given
neither a kind nor a token, both are left with an uninitialised `kind` and a
default-constructed `tok`, and the two nodes of different variants carry the same `kind`. -/
theorem node_creation_kind_counterexample :
    (IntegerLiteralNode_ctor sample_env 0).base.kind = none ∧
    (IntegerLiteralNode_ctor sample_env 0).base.tok = sample_env.token_default ∧
    (IntegerLiteralNode_ctor sample_env 0).base.kind =
      (BooleanLiteralNode_ctor sample_env true).base.kind ∧
    (IntegerLiteralNode_ctor sample_env 0).variant ≠
      (BooleanLiteralNode_ctor sample_env true).variant := by
  decide

/-- C8, amended: of the constructors in `ast.h` only `ASTNode(NodeKind)` is given a kind,
which it stores, and none is given a token; `ASTNode()` and the constructors of the
variants VariableDeclaration, Parameter, ExpressionStatement, Prefix, Binary, Integer,
Boolean and Float leave `kind` uninitialised and `tok` default-constructed whatever their
arguments are, and `NodeKind`, with its two enumerators, has no distinct value for each
variant. -/
theorem node_creation_fields (env : Env) :
    (∀ k : NodeKind, (ASTNode_ctor_kind env k).kind = some k ∧
      (ASTNode_ctor_kind env k).tok = env.token_default) ∧
    ((ASTNode_ctor env).kind = none ∧ (ASTNode_ctor env).tok = env.token_default) ∧
    (∀ (name : String) (type_spec expr : ASTNode),
      (VariableDeclaration_ctor env name type_spec expr).kind = none ∧
      (VariableDeclaration_ctor env name type_spec expr).tok = env.token_default) ∧
    (∀ (name : String) (data_type : token),
      (ProcParameter_ctor env name data_type).kind = none ∧
      (ProcParameter_ctor env name data_type).tok = env.token_default) ∧
    (∀ expr : ExpressionNode,
      (ExpressionStatementNode_ctor env expr).kind = none ∧
      (ExpressionStatementNode_ctor env expr).tok = env.token_default) ∧
    (∀ (op : token) (rhs : ExpressionNode),
      (ExpressionPrefixNode_ctor env op rhs).base.kind = none ∧
      (ExpressionPrefixNode_ctor env op rhs).base.tok = env.token_default) ∧
    (∀ (lhs : ExpressionNode) (op : token) (rhs : ExpressionNode),
      (ExpressionBinaryNode_ctor env lhs op rhs).base.kind = none ∧
      (ExpressionBinaryNode_ctor env lhs op rhs).base.tok = env.token_default) ∧
    (∀ value : Nat,
      (IntegerLiteralNode_ctor env value).base.kind = none ∧
      (IntegerLiteralNode_ctor env value).base.tok = env.token_default) ∧
    (∀ is_true : Bool,
      (BooleanLiteralNode_ctor env is_true).base.kind = none ∧
      (BooleanLiteralNode_ctor env is_true).base.tok = env.token_default) ∧
    (∀ value : f64,
      (FloatLiteralNode_ctor env value).base.kind = none ∧
      (FloatLiteralNode_ctor env value).base.tok = env.token_default) ∧
    (¬ ∃ tag : Variant → NodeKind, Function.Injective tag) := by
  refine ⟨fun _ => ⟨rfl, rfl⟩, ⟨rfl, rfl⟩, fun _ _ _ => ⟨rfl, rfl⟩, fun _ _ => ⟨rfl, rfl⟩,
    fun _ => ⟨rfl, rfl⟩, fun _ _ => ⟨rfl, rfl⟩, fun _ _ _ => ⟨rfl, rfl⟩, fun _ => ⟨rfl, rfl⟩,
    fun _ => ⟨rfl, rfl⟩, fun _ => ⟨rfl, rfl⟩, ?_⟩
  rintro ⟨tag, hinj⟩
  have h1 : tag .ASTNode ≠ tag .ProcedureNode := fun h => by
    have := hinj h
    cases this
  have h2 : tag .ASTNode ≠ tag .ProcParameter := fun h => by
    have := hinj h
    cases this
  have h3 : tag .ProcedureNode ≠ tag .ProcParameter := fun h => by
    have := hinj h
    cases this
  generalize tag .ASTNode = x at h1 h2
  generalize tag .ProcedureNode = y at h1 h3
  generalize tag .ProcParameter = z at h2 h3
  cases x <;> cases y <;> cases z <;> simp at h1 h2 h3

/-! ### The loader `VFile::from` -/

/-- C3, as stated, fails at the missing path `missing.vpr`: the call writes the message to
`stderr` and returns a default-constructed `VFile`; what the caller holds is a `VFile`, not
a `VError` of level FATAL. -/
theorem from_missing_diagnostic_counterexample :
    sample_disk (c_str "missing.vpr") = none ∧
    VFile.from sample_disk "missing.vpr" =
      { ret := VFile_ctor, stderr := "Error: cannot open file missing.vpr\n" } ∧
    ¬ ∃ e : VError, e.m_level = error_level.ERR_LEVEL_FATAL ∧
      (VFile.from sample_disk "missing.vpr").returned = LoadResult.Diagnostic e := by
  refine ⟨by decide, by decide, ?_⟩
  rintro ⟨e, -, he⟩
  simp [FromOutcome.returned] at he

/-- C3, amended: for every path that names a missing or unreadable file, `VFile::from`
reports the failure out of band only: it writes `Error: cannot open file`, the path and a
line break to `stderr`, returns a default-constructed `VFile`, and hands no `VError` to
its caller. -/
theorem from_missing_reports_on_stderr (disk : Disk) (file_path : String)
    (h : disk (c_str file_path) = none) :
    (VFile.from disk file_path).stderr =
      "Error: cannot open file " ++ c_str file_path ++ "\n" ∧
    (VFile.from disk file_path).ret = VFile_ctor ∧
    ∀ e : VError, (VFile.from disk file_path).returned ≠ LoadResult.Diagnostic e := by
  rw [VFile.from_of_open_failed disk file_path h]
  refine ⟨rfl, rfl, ?_⟩
  intro e he
  simp [FromOutcome.returned] at he

/-- C3, amended, at the missing path `absent.vpr`. -/
theorem from_missing_reports_on_stderr_witness :
    sample_disk (c_str "absent.vpr") = none ∧
    ((VFile.from sample_disk "absent.vpr").stderr =
        "Error: cannot open file " ++ c_str "absent.vpr" ++ "\n" ∧
      (VFile.from sample_disk "absent.vpr").ret = VFile_ctor ∧
      ∀ e : VError,
        (VFile.from sample_disk "absent.vpr").returned ≠ LoadResult.Diagnostic e) :=
  ⟨by decide, from_missing_reports_on_stderr sample_disk "absent.vpr" (by decide)⟩

/-- C4: for every path that names a missing or unreadable file, `VFile::from` returns a
unit whose content is empty, whose dependency map is empty and whose name is empty, the
path assigned to the name before the open attempt not being carried over. -/
theorem from_missing_returns_empty_unit (disk : Disk) (file_path : String)
    (h : disk (c_str file_path) = none) :
    (VFile.from disk file_path).ret.content = [] ∧
    (VFile.from disk file_path).ret.dependency_modules = [] ∧
    (VFile.from disk file_path).ret.name = "" := by
  rw [VFile.from_of_open_failed disk file_path h]
  exact ⟨rfl, rfl, rfl⟩

/-- C4 at the missing path `nowhere.vpr`. -/
theorem from_missing_returns_empty_unit_witness :
    sample_disk (c_str "nowhere.vpr") = none ∧
    ((VFile.from sample_disk "nowhere.vpr").ret.content = [] ∧
      (VFile.from sample_disk "nowhere.vpr").ret.dependency_modules = [] ∧
      (VFile.from sample_disk "nowhere.vpr").ret.name = "") :=
  ⟨by decide, from_missing_returns_empty_unit sample_disk "nowhere.vpr" (by decide)⟩

/-- C5: for every path that names a readable file whose bytes are `b` (a file's size fits
`std::size_t`), `VFile::from` returns a unit whose name is the path and whose content is
`b`: the same length, the same bytes in the same order, nothing cut and nothing added, with
an empty dependency map, and nothing written to `stderr`. -/
theorem from_readable_returns_content (disk : Disk) (file_path : String) (b : List Byte)
    (h : disk (c_str file_path) = some b) (hlen : b.length < 2 ^ 64) :
    (VFile.from disk file_path).ret.name = file_path ∧
    (VFile.from disk file_path).ret.content = b ∧
    (VFile.from disk file_path).ret.content.length = b.length ∧
    (VFile.from disk file_path).ret.dependency_modules = [] ∧
    (VFile.from disk file_path).stderr = "" := by
  rw [VFile.from_of_open_ok disk file_path b h hlen]
  exact ⟨rfl, rfl, rfl, rfl, rfl⟩

/-- C5 at the file `main.vpr` of three bytes. -/
theorem from_readable_returns_content_witness :
    sample_disk (c_str "main.vpr") = some [108, 101, 116] ∧
    ([108, 101, 116] : List Byte).length < 2 ^ 64 ∧
    ((VFile.from sample_disk "main.vpr").ret.name = "main.vpr" ∧
      (VFile.from sample_disk "main.vpr").ret.content = [108, 101, 116] ∧
      (VFile.from sample_disk "main.vpr").ret.content.length =
        ([108, 101, 116] : List Byte).length ∧
      (VFile.from sample_disk "main.vpr").ret.dependency_modules = [] ∧
      (VFile.from sample_disk "main.vpr").stderr = "") :=
  ⟨by decide, by decide,
    from_readable_returns_content sample_disk "main.vpr" [108, 101, 116] (by decide)
      (by decide)⟩

/-! ### The test manager -/

/-- C10 fails on the code: with one registered test that yields `BYPASS` (2), `run_tests`
invokes it once and counts it as passed, not as skipped; with tests yielding `1`, `0` and
`2` it counts two passed, one failed and none skipped; and whatever is registered, the
`skipped` counter ends at zero. -/
theorem run_tests_bypass_counted_passed :
    sample_bypass_manager.run_tests =
      { passed := 1, failed := 0, skipped := 0, invoked := [0], lines := "" } ∧
    sample_manager.run_tests =
      { passed := 2, failed := 1, skipped := 0, invoked := [0, 1, 2],
        lines := "[FAILED]: second\n" } ∧
    ∀ m : TestManager, m.run_tests.skipped = 0 := by
  refine ⟨by decide, by decide, ?_⟩
  intro m
  exact TestManager.foldl_run_one_skipped m _ _ rfl

end viper
